import Mathlib

/-!
Shallow embedding of `src/framework/dispatch/common.rs` of the poise command
framework: the permission resolver (`user_permissions`), the
missing-permission calculator (`missing_permissions`) and the authorization
gate (`check_permissions_and_cooldown`), together with proofs of the
specification claims about them.

Modelling decisions:
* A Discord permission set (`serenity::Permissions`, a `u64` bitflag set) is
  embedded as a `Finset (Fin 64)`; bitflag difference `-` is set difference,
  `Permissions::all()` is the full set, `is_empty` is equality with `∅`.
* Ids, members and channel payloads are opaque to the code under analysis and
  are embedded as `Nat`.
* The serenity cache, the HTTP client and the role-resolution capability are
  external collaborators; they are embedded as function-valued fields of an
  `Env` record (`Result<_, E>.ok()` collapses to `Option`).
* The asynchronous functions contain no concurrency visible at this level:
  each invocation runs its stages sequentially, so they are embedded as pure
  functions.  The mutex-guarded cooldown tracker owned by the command is
  threaded through the gate as an explicit state value of an abstract type
  `σ` with the two operations of its call contract.
-/

namespace Poise

/-- Permission bitset over the fixed 64-capability enumeration. -/
abbrev Perms := Finset (Fin 64)

/-- The full permission set, `Permissions::all()`. -/
def Perms.all : Perms := Finset.univ

abbrev GuildId := Nat
abbrev ChannelId := Nat
abbrev UserId := Nat

/-- Opaque member payload (`serenity::Member`). -/
abbrev Member := Nat

/-- Opaque guild-channel payload (`serenity::GuildChannel`). -/
abbrev GuildChannel := Nat

/-- Remaining-cooldown duration (`std::time::Duration`). -/
abbrev Duration := Nat

/-- A cached channel: either a guild channel or some other channel kind
(`serenity::Channel` collapsed to the two cases the code distinguishes). -/
inductive Channel where
  | Guild (channel : GuildChannel)
  | Other
deriving DecidableEq

/-- View of a cached guild: its channel map, member map, and the external
role-resolution capability `user_permissions_in` (its `Result` collapsed to
`Option` by the `.ok()` at the call site). -/
structure GuildView where
  channels : ChannelId → Option Channel
  members : UserId → Option Member
  user_permissions_in : GuildChannel → Member → Option Perms

/-- The external collaborators reachable from `serenity::Context`: the cache
(`cache.guild`, `cache.current_user_id`) and the HTTP client
(`http.get_member`, with `Err(_)` collapsed to `none`). -/
structure Env where
  cache_guild : GuildId → Option GuildView
  http_get_member : GuildId → UserId → Option Member
  current_user_id : UserId

/-- Permission resolver: retrieves user permissions in the given channel.
If unknown, returns `none`.  If in DMs, returns `Perms.all`.
Mirrors `user_permissions` in `src/framework/dispatch/common.rs`. -/
def user_permissions (ctx : Env) (guild_id : Option GuildId)
    (channel_id : ChannelId) (user_id : UserId) : Option Perms :=
  match guild_id with
  | none => some Perms.all -- no permission checks in DMs
  | some guild_id =>
    match ctx.cache_guild guild_id with
    | none => none -- Guild not in cache
    | some guild =>
      match guild.channels channel_id with
      | some (Channel.Guild channel) =>
        -- If member not in cache, retrieve via HTTP
        let member : Option Member :=
          match guild.members user_id with
          | some x => some x
          | none => ctx.http_get_member guild_id user_id
        match member with
        | some member => guild.user_permissions_in channel member
        | none => none
      | some _ => none -- warning: non-guild channel; deny invocation
      | none => none

/-- The per-invocation identity data the gate reads from the context:
author id, channel id, optional guild id. -/
structure CtxData where
  guild_id : Option GuildId
  channel_id : ChannelId
  author : UserId
deriving DecidableEq

/-- Missing-permission calculator: returns `none` if permissions could not
be retrieved.  Mirrors `missing_permissions` in
`src/framework/dispatch/common.rs`. -/
def missing_permissions (env : Env) (d : CtxData) (user : UserId)
    (required_permissions : Perms) : Option Perms :=
  if required_permissions = ∅ then
    some (∅ : Perms)
  else
    match user_permissions env d.guild_id d.channel_id user with
    | some perms => some (required_permissions \ perms)
    | none => none

/-- Location tag on a wrapped command error (`crate::CommandErrorLocation`;
the enum is declared outside the visible file, its two relevant values are
the check stage and the command body). -/
inductive CommandErrorLocation where
  | Body
  | Check
deriving DecidableEq

/-- The denial taxonomy returned by the gate (`crate::FrameworkError`,
restricted to the variants this file constructs; the `ctx` field carried by
every variant is the ambient invocation context and is dropped here). -/
inductive FrameworkError (E : Type) where
  | NotAnOwner
  | MissingUserPermissions (missing_permissions : Option Perms)
  | MissingBotPermissions (missing_permissions : Perms)
  | CommandCheckFailed
  | Command (error : E) (location : CommandErrorLocation)
  | CooldownHit (remaining_cooldown : Duration)
deriving DecidableEq

/-- Framework-level configuration the gate reads: the global owner set and
the optional framework-wide default check. -/
structure FrameworkOptions (E : Type) where
  owners : List UserId
  command_check : Option (CtxData → Except E Bool)

/-- The full invocation context (`crate::Context`): identity data, the
external environment, and the framework configuration. -/
structure Ctx (E : Type) where
  env : Env
  data : CtxData
  options : FrameworkOptions E

/-- Static command configuration (`crate::CommandId`), restricted to the
fields the gate reads; the command-owned cooldown tracker state is threaded
separately as the gate's `σ` argument. -/
structure CommandId (E : Type) where
  owners_only : Bool
  required_permissions : Perms
  required_bot_permissions : Perms
  check : Option (CtxData → Except E Bool)

/-- Call contract of the mutex-guarded cooldown tracker
(`crate::Cooldowns`): query the remaining cooldown, or record the current
invocation.  The tracker state is an abstract `σ`. -/
structure CooldownOps (σ : Type) where
  remaining_cooldown : σ → CtxData → Option Duration
  start_cooldown : σ → CtxData → σ

/-- Cooldown stage of the gate: deny with `CooldownHit` if a cooldown is
outstanding, otherwise commit via `start_cooldown` and succeed.  Mirrors the
final lines of `check_permissions_and_cooldown`. -/
def cooldown_stage {σ E : Type} (ops : CooldownOps σ) (d : CtxData)
    (cooldowns : σ) : Except (FrameworkError E) Unit × σ :=
  match ops.remaining_cooldown cooldowns d with
  | some remaining_cooldown =>
    (Except.error (FrameworkError.CooldownHit remaining_cooldown), cooldowns)
  | none => (Except.ok (), ops.start_cooldown cooldowns d)

/-- Custom-check stage followed by the cooldown stage: select the
command-specific check, else the framework default, else pass; only continue
if the selected check returns `Ok(true)`.  Mirrors the second half of
`check_permissions_and_cooldown`. -/
def run_check_and_cooldown {σ E : Type} (ops : CooldownOps σ) (ctx : Ctx E)
    (cmd : CommandId E) (cooldowns : σ) : Except (FrameworkError E) Unit × σ :=
  match Option.or cmd.check ctx.options.command_check with
  | some c =>
    match c ctx.data with
    | Except.ok true => cooldown_stage ops ctx.data cooldowns
    | Except.ok false => (Except.error FrameworkError.CommandCheckFailed, cooldowns)
    | Except.error error =>
      (Except.error (FrameworkError.Command error CommandErrorLocation.Check), cooldowns)
  | none => cooldown_stage ops ctx.data cooldowns

/-- The authorization gate (`check_permissions_and_cooldown`): ownership,
user-permission, bot-permission, custom-check and cooldown stages in order,
returning the outcome together with the (possibly updated) tracker state. -/
def check_permissions_and_cooldown {σ E : Type} (ops : CooldownOps σ)
    (ctx : Ctx E) (cmd : CommandId E) (cooldowns : σ) :
    Except (FrameworkError E) Unit × σ :=
  if cmd.owners_only && !(ctx.options.owners.contains ctx.data.author) then
    (Except.error FrameworkError.NotAnOwner, cooldowns)
  else
    -- Make sure that user has required permissions
    match missing_permissions ctx.env ctx.data ctx.data.author
        cmd.required_permissions with
    | some mp =>
      if mp = ∅ then
        -- make sure the bot has the permissions it needs
        match missing_permissions ctx.env ctx.data ctx.env.current_user_id
            cmd.required_bot_permissions with
        | some mbp =>
          if mbp = ∅ then
            run_check_and_cooldown ops ctx cmd cooldowns
          else
            (Except.error (FrameworkError.MissingBotPermissions mbp), cooldowns)
        -- When in doubt, just let it run
        | none => run_check_and_cooldown ops ctx cmd cooldowns
      else
        (Except.error (FrameworkError.MissingUserPermissions (some mp)), cooldowns)
    -- Better safe than sorry: when perms are unknown, restrict access
    | none =>
      (Except.error (FrameworkError.MissingUserPermissions none), cooldowns)

/-! Concrete fixtures used by the witness theorems. -/

/-- An environment in which every cache lookup misses and every remote
fetch fails: permission resolution is unknown for every guild context. -/
def envNone : Env :=
  { cache_guild := fun _ => none
    http_get_member := fun _ _ => none
    current_user_id := 99 }

/-- A cached guild whose channel `2` is a guild channel, whose only cached
member is user `3`, and whose role-resolution capability always computes the
permission set `{1}`. -/
def guildViewA : GuildView :=
  { channels := fun c => if c = 2 then some (Channel.Guild 7) else none
    members := fun u => if u = 3 then some 30 else none
    user_permissions_in := fun _ _ => some ({1} : Perms) }

/-- An environment caching exactly guild `1` as `guildViewA`, with no
remote fetch: resolution yields `some {1}` for user `3` and `none` for any
other user (such as the bot, user `99`). -/
def envSome : Env :=
  { cache_guild := fun g => if g = 1 then some guildViewA else none
    http_get_member := fun _ _ => none
    current_user_id := 99 }

/-- Guild invocation context data: guild `1`, channel `2`, author `3`. -/
def dG : CtxData := { guild_id := some 1, channel_id := 2, author := 3 }

/-- Direct-message invocation context data. -/
def dDM : CtxData := { guild_id := none, channel_id := 2, author := 3 }

/-- Cooldown tracker operations on a `Nat` counter state: no cooldown is
ever outstanding, and committing increments the counter. -/
def opsCount : CooldownOps Nat :=
  { remaining_cooldown := fun _ _ => none
    start_cooldown := fun s _ => s + 1 }

/-- Framework options with owner `3` and no default check. -/
def optsBase : FrameworkOptions Nat :=
  { owners := [3], command_check := none }

/-- A command with no requirements at all. -/
def cmdFree : CommandId Nat :=
  { owners_only := false
    required_permissions := ∅
    required_bot_permissions := ∅
    check := none }

/-- A cached guild in which every member is cached and role resolution
grants user `3` everything and everyone else nothing. -/
def guildViewB : GuildView :=
  { channels := fun c => if c = 2 then some (Channel.Guild 7) else none
    members := fun u => some u
    user_permissions_in := fun _ m => if m = 3 then some Perms.all else some ∅ }

/-- An environment caching guild `1` as `guildViewB`: resolution is known
for every user, full for user `3`, empty for the bot (user `99`). -/
def envBot : Env :=
  { cache_guild := fun g => if g = 1 then some guildViewB else none
    http_get_member := fun _ _ => none
    current_user_id := 99 }

/-- Guild invocation context over the all-unknown environment. -/
def ctxNoCache : Ctx Nat := { env := envNone, data := dG, options := optsBase }

/-- Guild invocation context over the resolving environment `envSome`. -/
def ctxG : Ctx Nat := { env := envSome, data := dG, options := optsBase }

/-- Guild invocation context over `envBot`. -/
def ctxBot : Ctx Nat := { env := envBot, data := dG, options := optsBase }

/-- Direct-message invocation context. -/
def ctxDM : Ctx Nat := { env := envNone, data := dDM, options := optsBase }

/-- A command requiring user permission `{0}` and nothing else. -/
def cmdUser : CommandId Nat :=
  { owners_only := false
    required_permissions := {0}
    required_bot_permissions := ∅
    check := none }

/-- A command requiring bot permission `{0}` and nothing else. -/
def cmdBotOnly : CommandId Nat :=
  { owners_only := false
    required_permissions := ∅
    required_bot_permissions := {0}
    check := none }

/-- Framework options with an empty owner set and no default check. -/
def optsNoOwner : FrameworkOptions Nat :=
  { owners := [], command_check := none }

/-- Guild invocation context with no owners configured, over the
all-unknown environment. -/
def ctxOwnerTest : Ctx Nat := { env := envNone, data := dG, options := optsNoOwner }

/-- An owners-only command that also requires user permission `{0}`. -/
def cmdOwner : CommandId Nat :=
  { owners_only := true
    required_permissions := {0}
    required_bot_permissions := ∅
    check := none }

/-- A command requiring user permissions `{0, 1}`. -/
def cmdUser2 : CommandId Nat :=
  { owners_only := false
    required_permissions := {0, 1}
    required_bot_permissions := ∅
    check := none }

/-- A custom check that always passes. -/
def checkTrue : CtxData → Except Nat Bool := fun _ => Except.ok true

/-- A custom check that always fails. -/
def checkFalse : CtxData → Except Nat Bool := fun _ => Except.ok false

/-- A custom check that always raises error `7`. -/
def checkErr : CtxData → Except Nat Bool := fun _ => Except.error 7

/-- A command whose only constraint is the always-true custom check. -/
def cmdCheckTrue : CommandId Nat :=
  { owners_only := false
    required_permissions := ∅
    required_bot_permissions := ∅
    check := some checkTrue }

/-- A command whose only constraint is the always-false custom check. -/
def cmdCheckFalse : CommandId Nat :=
  { owners_only := false
    required_permissions := ∅
    required_bot_permissions := ∅
    check := some checkFalse }

/-- A command whose only constraint is the always-erroring custom check. -/
def cmdCheckErr : CommandId Nat :=
  { owners_only := false
    required_permissions := ∅
    required_bot_permissions := ∅
    check := some checkErr }

/-- Decidable equality for `Except`, so witness evaluations can be closed
by `decide`. -/
instance {ε α : Type} [DecidableEq ε] [DecidableEq α] :
    DecidableEq (Except ε α) :=
  fun x y =>
    match x, y with
    | Except.error a, Except.error b =>
      if h : a = b then Decidable.isTrue (by rw [h])
      else Decidable.isFalse (by intro hc; cases hc; exact h rfl)
    | Except.error _, Except.ok _ => Decidable.isFalse (by intro hc; cases hc)
    | Except.ok _, Except.error _ => Decidable.isFalse (by intro hc; cases hc)
    | Except.ok a, Except.ok b =>
      if h : a = b then Decidable.isTrue (by rw [h])
      else Decidable.isFalse (by intro hc; cases hc; exact h rfl)

/-! Helper lemmas about the later stages, shared by the claim theorems. -/

/-- The custom-check and cooldown stages only ever produce success,
`CommandCheckFailed`, a wrapped check error, or `CooldownHit`. -/
theorem run_check_and_cooldown_outcomes {σ E : Type} (ops : CooldownOps σ)
    (ctx : Ctx E) (cmd : CommandId E) (cooldowns : σ) :
    (run_check_and_cooldown ops ctx cmd cooldowns).1 = Except.ok ()
    ∨ (run_check_and_cooldown ops ctx cmd cooldowns).1 =
        Except.error FrameworkError.CommandCheckFailed
    ∨ (∃ e, (run_check_and_cooldown ops ctx cmd cooldowns).1 =
        Except.error (FrameworkError.Command e CommandErrorLocation.Check))
    ∨ (∃ r, (run_check_and_cooldown ops ctx cmd cooldowns).1 =
        Except.error (FrameworkError.CooldownHit r)) := by
  unfold run_check_and_cooldown cooldown_stage
  split
  · split
    · split <;> simp
    · simp
    · simp
  · split <;> simp

/-- The custom-check and cooldown stages leave the tracker untouched on any
denial, and commit exactly one `start_cooldown` on success. -/
theorem run_check_and_cooldown_state {σ E : Type} (ops : CooldownOps σ)
    (ctx : Ctx E) (cmd : CommandId E) (cooldowns : σ) :
    (∀ e : FrameworkError E,
      (run_check_and_cooldown ops ctx cmd cooldowns).1 = Except.error e →
      (run_check_and_cooldown ops ctx cmd cooldowns).2 = cooldowns)
    ∧ ((run_check_and_cooldown ops ctx cmd cooldowns).1 = Except.ok () →
      (run_check_and_cooldown ops ctx cmd cooldowns).2 =
        ops.start_cooldown cooldowns ctx.data
      ∧ ops.remaining_cooldown cooldowns ctx.data = none) := by
  unfold run_check_and_cooldown cooldown_stage
  split
  · split
    · split <;> simp_all
    · simp
    · simp
  · split <;> simp_all

/-- The custom-check and cooldown stages never produce a permission or
ownership denial. -/
theorem run_check_and_cooldown_ne_perm {σ E : Type} (ops : CooldownOps σ)
    (ctx : Ctx E) (cmd : CommandId E) (cooldowns : σ) :
    (∀ o : Option Perms, (run_check_and_cooldown ops ctx cmd cooldowns).1 ≠
        Except.error (FrameworkError.MissingUserPermissions o))
    ∧ (∀ m : Perms, (run_check_and_cooldown ops ctx cmd cooldowns).1 ≠
        Except.error (FrameworkError.MissingBotPermissions m))
    ∧ (run_check_and_cooldown ops ctx cmd cooldowns).1 ≠
        Except.error FrameworkError.NotAnOwner := by
  refine ⟨fun o => ?_, fun m => ?_, ?_⟩ <;>
    rcases run_check_and_cooldown_outcomes ops ctx cmd cooldowns with
      h | h | ⟨e, h⟩ | ⟨r, h⟩ <;>
    simp [h]

/-- Exhaustive case analysis of the authorization gate: exactly one of the
five stage outcomes happens, each with the scrutinee values that caused it. -/
theorem check_permissions_and_cooldown_cases {σ E : Type} (ops : CooldownOps σ)
    (ctx : Ctx E) (cmd : CommandId E) (cooldowns : σ) :
    ((cmd.owners_only && !(ctx.options.owners.contains ctx.data.author)) = true
      ∧ check_permissions_and_cooldown ops ctx cmd cooldowns =
          (Except.error FrameworkError.NotAnOwner, cooldowns))
    ∨ ((cmd.owners_only && !(ctx.options.owners.contains ctx.data.author)) = false
      ∧ missing_permissions ctx.env ctx.data ctx.data.author
          cmd.required_permissions = none
      ∧ check_permissions_and_cooldown ops ctx cmd cooldowns =
          (Except.error (FrameworkError.MissingUserPermissions none), cooldowns))
    ∨ ((cmd.owners_only && !(ctx.options.owners.contains ctx.data.author)) = false
      ∧ (∃ m : Perms, missing_permissions ctx.env ctx.data ctx.data.author
            cmd.required_permissions = some m ∧ m ≠ ∅
          ∧ check_permissions_and_cooldown ops ctx cmd cooldowns =
              (Except.error (FrameworkError.MissingUserPermissions (some m)),
                cooldowns)))
    ∨ ((cmd.owners_only && !(ctx.options.owners.contains ctx.data.author)) = false
      ∧ missing_permissions ctx.env ctx.data ctx.data.author
          cmd.required_permissions = some ∅
      ∧ (∃ mb : Perms, missing_permissions ctx.env ctx.data
            ctx.env.current_user_id cmd.required_bot_permissions = some mb
          ∧ mb ≠ ∅
          ∧ check_permissions_and_cooldown ops ctx cmd cooldowns =
              (Except.error (FrameworkError.MissingBotPermissions mb), cooldowns)))
    ∨ ((cmd.owners_only && !(ctx.options.owners.contains ctx.data.author)) = false
      ∧ missing_permissions ctx.env ctx.data ctx.data.author
          cmd.required_permissions = some ∅
      ∧ (missing_permissions ctx.env ctx.data ctx.env.current_user_id
            cmd.required_bot_permissions = some ∅
         ∨ missing_permissions ctx.env ctx.data ctx.env.current_user_id
            cmd.required_bot_permissions = none)
      ∧ check_permissions_and_cooldown ops ctx cmd cooldowns =
          run_check_and_cooldown ops ctx cmd cooldowns) := by
  cases hown : cmd.owners_only && !(ctx.options.owners.contains ctx.data.author) with
  | true =>
    exact Or.inl ⟨rfl,
      by unfold check_permissions_and_cooldown; rw [hown]; simp⟩
  | false =>
    cases hu : missing_permissions ctx.env ctx.data ctx.data.author
        cmd.required_permissions with
    | none =>
      exact Or.inr (Or.inl ⟨rfl, rfl,
        by unfold check_permissions_and_cooldown; rw [hown, hu]; simp⟩)
    | some mp =>
      by_cases hm : mp = ∅
      · subst hm
        cases hb : missing_permissions ctx.env ctx.data ctx.env.current_user_id
            cmd.required_bot_permissions with
        | none =>
          exact Or.inr (Or.inr (Or.inr (Or.inr ⟨rfl, rfl, Or.inr rfl,
            by unfold check_permissions_and_cooldown; rw [hown, hu, hb]; simp⟩)))
        | some mbp =>
          by_cases hmb : mbp = ∅
          · subst hmb
            exact Or.inr (Or.inr (Or.inr (Or.inr ⟨rfl, rfl, Or.inl rfl,
              by unfold check_permissions_and_cooldown; rw [hown, hu, hb]; simp⟩)))
          · exact Or.inr (Or.inr (Or.inr (Or.inl ⟨rfl, rfl, mbp, rfl, hmb,
              by unfold check_permissions_and_cooldown; rw [hown, hu, hb]
                 simp [hmb]⟩)))
      · exact Or.inr (Or.inr (Or.inl ⟨rfl, mp, rfl, hm,
          by unfold check_permissions_and_cooldown; rw [hown, hu]; simp [hm]⟩))

/-- Inversion of the missing-permission calculator on a `some` result: the
set is always a subset of the required set. -/
theorem missing_permissions_subset (env : Env) (d : CtxData) (user : UserId)
    (required m : Perms)
    (h : missing_permissions env d user required = some m) :
    m ⊆ required := by
  unfold missing_permissions at h
  split at h
  · cases h
    exact Finset.empty_subset _
  · split at h
    · cases h
      exact Finset.sdiff_subset
    · cases h

/-- Inversion of the missing-permission calculator on a nonempty `some`
result: the required set is nonempty and the resolver returned a concrete
actual set whose difference from the required set is the result. -/
theorem missing_permissions_some_inv (env : Env) (d : CtxData) (user : UserId)
    (required m : Perms)
    (h : missing_permissions env d user required = some m) (hm : m ≠ ∅) :
    required ≠ ∅
    ∧ ∃ actual : Perms,
        user_permissions env d.guild_id d.channel_id user = some actual
        ∧ m = required \ actual := by
  unfold missing_permissions at h
  split at h
  · cases h
    exact absurd rfl hm
  · next hreq =>
    refine ⟨hreq, ?_⟩
    split at h
    · next perms hperms =>
      cases h
      exact ⟨perms, hperms, rfl⟩
    · cases h

/-! Claim theorems. -/

/-- C3: the missing-permission calculator returns `some ∅` for an empty
required set regardless of the environment (the resolver is irrelevant);
for a nonempty required set it propagates an unknown resolution as `none`
and otherwise returns the set difference `required \ actual`. -/
theorem missing_permissions_spec (env : Env) (d : CtxData) (user : UserId)
    (required : Perms) :
    (required = ∅ → ∀ (env2 : Env) (d2 : CtxData) (u2 : UserId),
      missing_permissions env2 d2 u2 required = some ∅)
    ∧ (required ≠ ∅ →
        (user_permissions env d.guild_id d.channel_id user = none →
          missing_permissions env d user required = none)
        ∧ ∀ actual : Perms,
            user_permissions env d.guild_id d.channel_id user = some actual →
            missing_permissions env d user required = some (required \ actual)) := by
  refine ⟨fun h env2 d2 u2 => ?_, fun h => ⟨fun hr => ?_, fun actual hr => ?_⟩⟩
  · simp [missing_permissions, h]
  · simp [missing_permissions, h, hr]
  · simp [missing_permissions, h, hr]

/-- Witness for C3: evaluates all three branches of the calculator on
concrete environments. -/
theorem missing_permissions_spec_witness :
    missing_permissions envSome dG 3 ∅ = some ∅
    ∧ missing_permissions envNone dG 3 {0} = none
    ∧ missing_permissions envSome dG 3 {0, 1} = some (({0, 1} : Perms) \ {1}) := by
  refine ⟨(missing_permissions_spec envSome dG 3 ∅).1 rfl envSome dG 3, ?_, ?_⟩
  · exact ((missing_permissions_spec envNone dG 3 {0}).2 (by decide)).1 (by decide)
  · exact ((missing_permissions_spec envSome dG 3 {0, 1}).2 (by decide)).2 {1} (by decide)

/-- If the user-permission stage computes an empty missing set, the gate
never denies with `MissingUserPermissions`. -/
theorem user_stage_pass_no_mup {σ E : Type} (ops : CooldownOps σ) (ctx : Ctx E)
    (cmd : CommandId E) (cooldowns : σ)
    (hmp : missing_permissions ctx.env ctx.data ctx.data.author
        cmd.required_permissions = some ∅) :
    ∀ o : Option Perms,
      (check_permissions_and_cooldown ops ctx cmd cooldowns).1 ≠
        Except.error (FrameworkError.MissingUserPermissions o) := by
  intro o
  rcases check_permissions_and_cooldown_cases ops ctx cmd cooldowns with
    ⟨_, hG⟩ | ⟨_, hu, hG⟩ | ⟨_, m, hu, hm, hG⟩ | ⟨_, _, mb, _, _, hG⟩ |
    ⟨_, _, _, hG⟩
  · simp [hG]
  · rw [hmp] at hu
    cases hu
  · rw [hmp] at hu
    injection hu with h
    exact absurd h.symm hm
  · simp [hG]
  · rw [hG]
    exact (run_check_and_cooldown_ne_perm ops ctx cmd cooldowns).1 o

/-- If the bot-permission stage computes an empty missing set or an unknown
one, the gate never denies with `MissingBotPermissions`. -/
theorem bot_stage_pass_no_mbp {σ E : Type} (ops : CooldownOps σ) (ctx : Ctx E)
    (cmd : CommandId E) (cooldowns : σ)
    (hbp : missing_permissions ctx.env ctx.data ctx.env.current_user_id
        cmd.required_bot_permissions = some ∅
      ∨ missing_permissions ctx.env ctx.data ctx.env.current_user_id
        cmd.required_bot_permissions = none) :
    ∀ m : Perms,
      (check_permissions_and_cooldown ops ctx cmd cooldowns).1 ≠
        Except.error (FrameworkError.MissingBotPermissions m) := by
  intro m
  rcases check_permissions_and_cooldown_cases ops ctx cmd cooldowns with
    ⟨_, hG⟩ | ⟨_, _, hG⟩ | ⟨_, m2, _, _, hG⟩ | ⟨_, _, mb, hbmp, hmb, hG⟩ |
    ⟨_, _, _, hG⟩
  · simp [hG]
  · simp [hG]
  · simp [hG]
  · rcases hbp with hbp | hbp
    · rw [hbp] at hbmp
      injection hbmp with h
      exact absurd h.symm hmb
    · rw [hbp] at hbmp
      cases hbmp
  · rw [hG]
    exact (run_check_and_cooldown_ne_perm ops ctx cmd cooldowns).2.1 m

/-- C1: when permission resolution is unknown the user stage fails closed,
denying with `MissingUserPermissions none`, while the same unknown result at
the bot stage fails open, falling through to the remaining stages; and a
`MissingBotPermissions` denial always carries the concrete nonempty set
computed from a known resolution, never an unknown one. -/
theorem unknown_resolution_asymmetry {σ E : Type} (ops : CooldownOps σ)
    (ctx : Ctx E) (cmd : CommandId E) (cooldowns : σ) :
    ((cmd.owners_only && !(ctx.options.owners.contains ctx.data.author)) = false →
      missing_permissions ctx.env ctx.data ctx.data.author
        cmd.required_permissions = none →
      check_permissions_and_cooldown ops ctx cmd cooldowns =
        (Except.error (FrameworkError.MissingUserPermissions none), cooldowns))
    ∧ ((cmd.owners_only && !(ctx.options.owners.contains ctx.data.author)) = false →
      missing_permissions ctx.env ctx.data ctx.data.author
        cmd.required_permissions = some ∅ →
      missing_permissions ctx.env ctx.data ctx.env.current_user_id
        cmd.required_bot_permissions = none →
      check_permissions_and_cooldown ops ctx cmd cooldowns =
        run_check_and_cooldown ops ctx cmd cooldowns)
    ∧ (∀ m : Perms,
      (check_permissions_and_cooldown ops ctx cmd cooldowns).1 =
        Except.error (FrameworkError.MissingBotPermissions m) →
      m ≠ ∅
      ∧ missing_permissions ctx.env ctx.data ctx.env.current_user_id
          cmd.required_bot_permissions = some m
      ∧ cmd.required_bot_permissions ≠ ∅
      ∧ ∃ actual : Perms,
          user_permissions ctx.env ctx.data.guild_id ctx.data.channel_id
            ctx.env.current_user_id = some actual
          ∧ m = cmd.required_bot_permissions \ actual) := by
  refine ⟨fun hown hu => ?_, fun hown hu hb => ?_, fun m hG => ?_⟩
  · unfold check_permissions_and_cooldown
    rw [hown, hu]
    simp
  · unfold check_permissions_and_cooldown
    rw [hown, hu, hb]
    simp
  · rcases check_permissions_and_cooldown_cases ops ctx cmd cooldowns with
      ⟨_, hGeq⟩ | ⟨_, _, hGeq⟩ | ⟨_, m2, _, _, hGeq⟩ | ⟨_, _, mb, hbmp, hmb, hGeq⟩ |
      ⟨_, _, _, hGeq⟩
    · rw [hGeq] at hG
      simp at hG
    · rw [hGeq] at hG
      simp at hG
    · rw [hGeq] at hG
      simp at hG
    · rw [hGeq] at hG
      simp at hG
      subst hG
      rcases missing_permissions_some_inv ctx.env ctx.data ctx.env.current_user_id
        cmd.required_bot_permissions mb hbmp hmb with ⟨hreq, actual, hup, hdiff⟩
      exact ⟨hmb, hbmp, hreq, actual, hup, hdiff⟩
    · rw [hGeq] at hG
      exact absurd hG ((run_check_and_cooldown_ne_perm ops ctx cmd cooldowns).2.1 m)

/-- Witness for C1: over the all-unknown environment the user stage denies
and the bot stage falls through, on identical (unknown) resolver output;
over `envBot` the gate denies with the concrete set `{0}` computed from the
bot's known, empty permission set. -/
theorem unknown_resolution_asymmetry_witness :
    check_permissions_and_cooldown opsCount ctxNoCache cmdUser 0 =
      (Except.error (FrameworkError.MissingUserPermissions none), 0)
    ∧ check_permissions_and_cooldown opsCount ctxNoCache cmdBotOnly 0 =
        run_check_and_cooldown opsCount ctxNoCache cmdBotOnly 0
    ∧ (check_permissions_and_cooldown opsCount ctxBot cmdBotOnly 0).1 =
        Except.error (FrameworkError.MissingBotPermissions {0})
    ∧ missing_permissions ctxBot.env ctxBot.data ctxBot.env.current_user_id
        cmdBotOnly.required_bot_permissions = some {0} :=
  ⟨(unknown_resolution_asymmetry opsCount ctxNoCache cmdUser 0).1
      (by decide) (by decide),
   (unknown_resolution_asymmetry opsCount ctxNoCache cmdBotOnly 0).2.1
      (by decide) (by decide) (by decide),
   by decide,
   ((unknown_resolution_asymmetry opsCount ctxBot cmdBotOnly 0).2.2 {0}
      (by decide)).2.1⟩

/-- C2: a denied invocation leaves the cooldown tracker exactly as it was —
in particular a `CooldownHit` denial neither resets nor consumes the
cooldown — and the single `start_cooldown` commit happens only on an
invocation for which every earlier stage and the remaining-cooldown query
passed. -/
theorem denial_leaves_tracker_unchanged {σ E : Type} (ops : CooldownOps σ)
    (ctx : Ctx E) (cmd : CommandId E) (cooldowns : σ) :
    (∀ e : FrameworkError E,
      (check_permissions_and_cooldown ops ctx cmd cooldowns).1 = Except.error e →
      (check_permissions_and_cooldown ops ctx cmd cooldowns).2 = cooldowns)
    ∧ ((check_permissions_and_cooldown ops ctx cmd cooldowns).1 = Except.ok () →
      (check_permissions_and_cooldown ops ctx cmd cooldowns).2 =
        ops.start_cooldown cooldowns ctx.data
      ∧ ops.remaining_cooldown cooldowns ctx.data = none) := by
  rcases check_permissions_and_cooldown_cases ops ctx cmd cooldowns with
    ⟨_, hG⟩ | ⟨_, _, hG⟩ | ⟨_, m, _, _, hG⟩ | ⟨_, _, mb, _, _, hG⟩ |
    ⟨_, _, _, hG⟩
  · rw [hG]
    exact ⟨fun e he => rfl, fun h => Except.noConfusion h⟩
  · rw [hG]
    exact ⟨fun e he => rfl, fun h => Except.noConfusion h⟩
  · rw [hG]
    exact ⟨fun e he => rfl, fun h => Except.noConfusion h⟩
  · rw [hG]
    exact ⟨fun e he => rfl, fun h => Except.noConfusion h⟩
  · rw [hG]
    exact run_check_and_cooldown_state ops ctx cmd cooldowns

/-- Witness for C2: a `MissingUserPermissions` denial leaves the counter
tracker at `0`, while a fully passing invocation commits exactly one
`start_cooldown`. -/
theorem denial_leaves_tracker_unchanged_witness :
    (check_permissions_and_cooldown opsCount ctxNoCache cmdUser 0).2 = 0
    ∧ (check_permissions_and_cooldown opsCount ctxDM cmdFree 0).2 =
        opsCount.start_cooldown 0 dDM
    ∧ opsCount.remaining_cooldown 0 dDM = none :=
  ⟨(denial_leaves_tracker_unchanged opsCount ctxNoCache cmdUser 0).1
      (FrameworkError.MissingUserPermissions none) (by decide),
   ((denial_leaves_tracker_unchanged opsCount ctxDM cmdFree 0).2 (by decide)).1,
   ((denial_leaves_tracker_unchanged opsCount ctxDM cmdFree 0).2 (by decide)).2⟩

/-- C4: for a command whose required user-permission set is empty, the
missing-permission computation is `some ∅` for every environment, context
and user (the resolver is irrelevant), and the gate never denies with
`MissingUserPermissions`. -/
theorem empty_required_user_stage_passes {σ E : Type} (ops : CooldownOps σ)
    (ctx : Ctx E) (cmd : CommandId E) (cooldowns : σ)
    (h : cmd.required_permissions = ∅) :
    (∀ (env2 : Env) (d2 : CtxData) (u2 : UserId),
      missing_permissions env2 d2 u2 cmd.required_permissions = some ∅)
    ∧ ∀ o : Option Perms,
      (check_permissions_and_cooldown ops ctx cmd cooldowns).1 ≠
        Except.error (FrameworkError.MissingUserPermissions o) := by
  have hmp : ∀ (env2 : Env) (d2 : CtxData) (u2 : UserId),
      missing_permissions env2 d2 u2 cmd.required_permissions = some ∅ := by
    intro env2 d2 u2
    simp [missing_permissions, h]
  exact ⟨hmp, user_stage_pass_no_mup ops ctx cmd cooldowns
    (hmp ctx.env ctx.data ctx.data.author)⟩

/-- Witness for C4: a command with empty required permissions passes the
user stage even over the environment where every resolution is unknown. -/
theorem empty_required_user_stage_passes_witness :
    missing_permissions envNone dG 3 cmdFree.required_permissions = some ∅
    ∧ (check_permissions_and_cooldown opsCount ctxNoCache cmdFree 0).1 ≠
        Except.error (FrameworkError.MissingUserPermissions none) :=
  ⟨(empty_required_user_stage_passes opsCount ctxNoCache cmdFree 0 rfl).1
      envNone dG 3,
   (empty_required_user_stage_passes opsCount ctxNoCache cmdFree 0 rfl).2 none⟩

/-- C9: the empty-required short-circuit applies to the bot stage too: for
a command whose required bot-permission set is empty, the computation is
`some ∅` for every environment (the resolver is irrelevant), and the gate
never denies with `MissingBotPermissions`. -/
theorem empty_required_bot_stage_passes {σ E : Type} (ops : CooldownOps σ)
    (ctx : Ctx E) (cmd : CommandId E) (cooldowns : σ)
    (h : cmd.required_bot_permissions = ∅) :
    (∀ (env2 : Env) (d2 : CtxData) (u2 : UserId),
      missing_permissions env2 d2 u2 cmd.required_bot_permissions = some ∅)
    ∧ ∀ m : Perms,
      (check_permissions_and_cooldown ops ctx cmd cooldowns).1 ≠
        Except.error (FrameworkError.MissingBotPermissions m) := by
  have hmp : ∀ (env2 : Env) (d2 : CtxData) (u2 : UserId),
      missing_permissions env2 d2 u2 cmd.required_bot_permissions = some ∅ := by
    intro env2 d2 u2
    simp [missing_permissions, h]
  exact ⟨hmp, bot_stage_pass_no_mbp ops ctx cmd cooldowns
    (Or.inl (hmp ctx.env ctx.data ctx.env.current_user_id))⟩

/-- Witness for C9: a command with empty required bot permissions passes
the bot stage over the all-unknown environment. -/
theorem empty_required_bot_stage_passes_witness :
    missing_permissions envNone dG 99 cmdUser.required_bot_permissions = some ∅
    ∧ (check_permissions_and_cooldown opsCount ctxNoCache cmdUser 0).1 ≠
        Except.error (FrameworkError.MissingBotPermissions {0}) :=
  ⟨(empty_required_bot_stage_passes opsCount ctxNoCache cmdUser 0 rfl).1
      envNone dG 99,
   (empty_required_bot_stage_passes opsCount ctxNoCache cmdUser 0 rfl).2 {0}⟩

/-- C6: in a direct-message context the permission resolver returns the
full permission set for every user, the missing-permission computation is
`some ∅` whatever the required set, and the gate never denies with
`MissingUserPermissions`. -/
theorem dm_user_stage_passes {σ E : Type} (ops : CooldownOps σ) (ctx : Ctx E)
    (cmd : CommandId E) (cooldowns : σ) (h : ctx.data.guild_id = none) :
    (∀ u : UserId, user_permissions ctx.env ctx.data.guild_id
        ctx.data.channel_id u = some Perms.all)
    ∧ missing_permissions ctx.env ctx.data ctx.data.author
        cmd.required_permissions = some ∅
    ∧ ∀ o : Option Perms,
      (check_permissions_and_cooldown ops ctx cmd cooldowns).1 ≠
        Except.error (FrameworkError.MissingUserPermissions o) := by
  have hup : ∀ u : UserId, user_permissions ctx.env ctx.data.guild_id
      ctx.data.channel_id u = some Perms.all := by
    intro u
    rw [h]
    rfl
  have hmp : missing_permissions ctx.env ctx.data ctx.data.author
      cmd.required_permissions = some ∅ := by
    unfold missing_permissions
    rw [hup ctx.data.author]
    by_cases hreq : cmd.required_permissions = ∅
    · simp [hreq]
    · simp [hreq, Perms.all, Finset.sdiff_eq_empty_iff_subset]
  exact ⟨hup, hmp, user_stage_pass_no_mup ops ctx cmd cooldowns hmp⟩

/-- Witness for C6: a direct-message invocation of a command requiring
permission `{0}` resolves to the full set and is not denied for user
permissions. -/
theorem dm_user_stage_passes_witness :
    user_permissions ctxDM.env ctxDM.data.guild_id ctxDM.data.channel_id 3 =
      some Perms.all
    ∧ missing_permissions ctxDM.env ctxDM.data ctxDM.data.author
        cmdUser.required_permissions = some ∅
    ∧ (check_permissions_and_cooldown opsCount ctxDM cmdUser 0).1 ≠
        Except.error (FrameworkError.MissingUserPermissions none) :=
  ⟨(dm_user_stage_passes opsCount ctxDM cmdUser 0 rfl).1 3,
   (dm_user_stage_passes opsCount ctxDM cmdUser 0 rfl).2.1,
   (dm_user_stage_passes opsCount ctxDM cmdUser 0 rfl).2.2 none⟩

/-- Counterexample to C5 as stated: with guild `1` absent from the cache
but an empty required permission set, the user-permission stage passes (the
gate succeeds) instead of denying with `MissingUserPermissions none`. -/
theorem guild_absent_can_pass :
    ctxNoCache.data.guild_id = some 1
    ∧ ctxNoCache.env.cache_guild 1 = none
    ∧ (check_permissions_and_cooldown opsCount ctxNoCache cmdFree 0).1 =
        Except.ok () :=
  ⟨rfl, rfl, by decide⟩

/-- C5 amended: for an invocation whose guild is absent from the local
cache, whose required permission set is nonempty, and which passes the
ownership stage, the gate denies with `MissingUserPermissions none`. -/
theorem guild_absent_user_stage_denies {σ E : Type} (ops : CooldownOps σ)
    (ctx : Ctx E) (cmd : CommandId E) (cooldowns : σ)
    (hown : (cmd.owners_only && !(ctx.options.owners.contains ctx.data.author)) = false)
    (g : GuildId) (hg : ctx.data.guild_id = some g)
    (hc : ctx.env.cache_guild g = none)
    (hreq : cmd.required_permissions ≠ ∅) :
    check_permissions_and_cooldown ops ctx cmd cooldowns =
      (Except.error (FrameworkError.MissingUserPermissions none), cooldowns) := by
  have hup : user_permissions ctx.env ctx.data.guild_id ctx.data.channel_id
      ctx.data.author = none := by
    simp [user_permissions, hg, hc]
  have hu : missing_permissions ctx.env ctx.data ctx.data.author
      cmd.required_permissions = none := by
    unfold missing_permissions
    rw [hup]
    simp [hreq]
  unfold check_permissions_and_cooldown
  rw [hown, hu]
  simp

/-- Witness for the amended C5: guild `1` is uncached and the required set
`{0}` is nonempty, so the invocation is denied with unknown user
permissions. -/
theorem guild_absent_user_stage_denies_witness :
    ctxNoCache.env.cache_guild 1 = none
    ∧ cmdUser.required_permissions ≠ ∅
    ∧ check_permissions_and_cooldown opsCount ctxNoCache cmdUser 0 =
        (Except.error (FrameworkError.MissingUserPermissions none), 0) :=
  ⟨rfl, by decide,
   guild_absent_user_stage_denies opsCount ctxNoCache cmdUser 0 (by decide)
     1 rfl rfl (by decide)⟩

/-- C7: ownership is evaluated first: for an owners-only command invoked by
a non-owner the gate returns `NotAnOwner` — even when the user-permission
check would also fail — and never `MissingUserPermissions`. -/
theorem not_an_owner_checked_first {σ E : Type} (ops : CooldownOps σ)
    (ctx : Ctx E) (cmd : CommandId E) (cooldowns : σ)
    (h1 : cmd.owners_only = true)
    (h2 : ctx.options.owners.contains ctx.data.author = false)
    (_h3 : missing_permissions ctx.env ctx.data ctx.data.author
        cmd.required_permissions ≠ some ∅) :
    check_permissions_and_cooldown ops ctx cmd cooldowns =
      (Except.error FrameworkError.NotAnOwner, cooldowns)
    ∧ ∀ o : Option Perms,
      (check_permissions_and_cooldown ops ctx cmd cooldowns).1 ≠
        Except.error (FrameworkError.MissingUserPermissions o) := by
  have hG : check_permissions_and_cooldown ops ctx cmd cooldowns =
      (Except.error FrameworkError.NotAnOwner, cooldowns) := by
    unfold check_permissions_and_cooldown
    rw [h1, h2]
    simp
  exact ⟨hG, fun o => by rw [hG]; simp⟩

/-- Witness for C7: an owners-only command with non-trivial permission
requirements, invoked by a non-owner over the all-unknown environment
(where the user-permission check would fail too), yields `NotAnOwner`. -/
theorem not_an_owner_checked_first_witness :
    cmdOwner.owners_only = true
    ∧ ctxOwnerTest.options.owners.contains ctxOwnerTest.data.author = false
    ∧ missing_permissions ctxOwnerTest.env ctxOwnerTest.data
        ctxOwnerTest.data.author cmdOwner.required_permissions ≠ some ∅
    ∧ check_permissions_and_cooldown opsCount ctxOwnerTest cmdOwner 0 =
        (Except.error FrameworkError.NotAnOwner, 0) :=
  ⟨rfl, by decide, by decide,
   (not_an_owner_checked_first opsCount ctxOwnerTest cmdOwner 0 rfl
     (by decide) (by decide)).1⟩

/-- C8: the custom-check stage selects the command-specific check if
present, else the framework-wide default, else passes trivially to the
cooldown stage; for the selected check, `Ok(true)` passes, `Ok(false)`
denies with `CommandCheckFailed`, and an error denies with `Command`
carrying the wrapped error and the `Check` location tag. -/
theorem custom_check_stage_spec {σ E : Type} (ops : CooldownOps σ)
    (ctx : Ctx E) (cmd : CommandId E) (cooldowns : σ) :
    (∀ c, cmd.check = some c →
      Option.or cmd.check ctx.options.command_check = some c)
    ∧ (cmd.check = none →
      Option.or cmd.check ctx.options.command_check = ctx.options.command_check)
    ∧ (∀ c, Option.or cmd.check ctx.options.command_check = some c →
      (c ctx.data = Except.ok true →
        run_check_and_cooldown ops ctx cmd cooldowns =
          cooldown_stage ops ctx.data cooldowns)
      ∧ (c ctx.data = Except.ok false →
        run_check_and_cooldown ops ctx cmd cooldowns =
          (Except.error FrameworkError.CommandCheckFailed, cooldowns))
      ∧ (∀ e : E, c ctx.data = Except.error e →
        run_check_and_cooldown ops ctx cmd cooldowns =
          (Except.error (FrameworkError.Command e CommandErrorLocation.Check),
            cooldowns)))
    ∧ (Option.or cmd.check ctx.options.command_check = none →
      run_check_and_cooldown ops ctx cmd cooldowns =
        cooldown_stage ops ctx.data cooldowns) := by
  refine ⟨fun c hc => by rw [hc]; rfl,
          fun hc => by rw [hc]; rfl,
          fun c hc => ⟨fun ht => ?_, fun hf => ?_, fun e he => ?_⟩,
          fun hc => ?_⟩
  · unfold run_check_and_cooldown
    rw [hc]
    simp [ht]
  · unfold run_check_and_cooldown
    rw [hc]
    simp [hf]
  · unfold run_check_and_cooldown
    rw [hc]
    simp [he]
  · unfold run_check_and_cooldown
    rw [hc]

/-- Witness for C8: the command-specific check is selected when present,
the fall-through when no check exists at all reaches the cooldown stage,
and the three check outcomes produce the three documented results. -/
theorem custom_check_stage_spec_witness :
    Option.or cmdCheckFalse.check ctxNoCache.options.command_check =
      some checkFalse
    ∧ run_check_and_cooldown opsCount ctxNoCache cmdCheckTrue 0 =
        cooldown_stage opsCount ctxNoCache.data 0
    ∧ run_check_and_cooldown opsCount ctxNoCache cmdCheckFalse 0 =
        (Except.error FrameworkError.CommandCheckFailed, 0)
    ∧ run_check_and_cooldown opsCount ctxNoCache cmdCheckErr 0 =
        (Except.error (FrameworkError.Command 7 CommandErrorLocation.Check), 0)
    ∧ run_check_and_cooldown opsCount ctxNoCache cmdFree 0 =
        cooldown_stage opsCount ctxNoCache.data 0 :=
  ⟨(custom_check_stage_spec opsCount ctxNoCache cmdCheckFalse 0).1 checkFalse rfl,
   ((custom_check_stage_spec opsCount ctxNoCache cmdCheckTrue 0).2.2.1 checkTrue
     rfl).1 rfl,
   ((custom_check_stage_spec opsCount ctxNoCache cmdCheckFalse 0).2.2.1 checkFalse
     rfl).2.1 rfl,
   ((custom_check_stage_spec opsCount ctxNoCache cmdCheckErr 0).2.2.1 checkErr
     rfl).2.2 7 rfl,
   (custom_check_stage_spec opsCount ctxNoCache cmdFree 0).2.2.2 rfl⟩

/-- C10: every concrete missing-permission payload of a denial — the
`some` payload of `MissingUserPermissions` or the payload of
`MissingBotPermissions` — is a nonempty subset of the corresponding
configured required set. -/
theorem missing_payload_nonempty_subset {σ E : Type} (ops : CooldownOps σ)
    (ctx : Ctx E) (cmd : CommandId E) (cooldowns : σ) :
    (∀ m : Perms,
      (check_permissions_and_cooldown ops ctx cmd cooldowns).1 =
        Except.error (FrameworkError.MissingUserPermissions (some m)) →
      m ≠ ∅ ∧ m ⊆ cmd.required_permissions)
    ∧ (∀ m : Perms,
      (check_permissions_and_cooldown ops ctx cmd cooldowns).1 =
        Except.error (FrameworkError.MissingBotPermissions m) →
      m ≠ ∅ ∧ m ⊆ cmd.required_bot_permissions) := by
  constructor
  · intro m hG
    rcases check_permissions_and_cooldown_cases ops ctx cmd cooldowns with
      ⟨_, hGeq⟩ | ⟨_, hu, hGeq⟩ | ⟨_, m2, hu, hm, hGeq⟩ | ⟨_, _, mb, hb, hmb, hGeq⟩ |
      ⟨_, _, _, hGeq⟩
    · rw [hGeq] at hG
      simp at hG
    · rw [hGeq] at hG
      simp at hG
    · rw [hGeq] at hG
      simp at hG
      subst hG
      exact ⟨hm, missing_permissions_subset ctx.env ctx.data ctx.data.author
        cmd.required_permissions m2 hu⟩
    · rw [hGeq] at hG
      simp at hG
    · rw [hGeq] at hG
      exact absurd hG
        ((run_check_and_cooldown_ne_perm ops ctx cmd cooldowns).1 (some m))
  · intro m hG
    rcases check_permissions_and_cooldown_cases ops ctx cmd cooldowns with
      ⟨_, hGeq⟩ | ⟨_, hu, hGeq⟩ | ⟨_, m2, hu, hm, hGeq⟩ | ⟨_, _, mb, hb, hmb, hGeq⟩ |
      ⟨_, _, _, hGeq⟩
    · rw [hGeq] at hG
      simp at hG
    · rw [hGeq] at hG
      simp at hG
    · rw [hGeq] at hG
      simp at hG
    · rw [hGeq] at hG
      simp at hG
      subst hG
      exact ⟨hmb, missing_permissions_subset ctx.env ctx.data
        ctx.env.current_user_id cmd.required_bot_permissions mb hb⟩
    · rw [hGeq] at hG
      exact absurd hG
        ((run_check_and_cooldown_ne_perm ops ctx cmd cooldowns).2.1 m)

/-- Witness for C10: a user denial with payload `{0}` out of required
`{0, 1}`, and a bot denial with payload `{0}` out of required `{0}`; each
payload is nonempty and contained in its required set. -/
theorem missing_payload_nonempty_subset_witness :
    (check_permissions_and_cooldown opsCount ctxG cmdUser2 0).1 =
      Except.error (FrameworkError.MissingUserPermissions (some {0}))
    ∧ (({0} : Perms) ≠ ∅ ∧ ({0} : Perms) ⊆ cmdUser2.required_permissions)
    ∧ (check_permissions_and_cooldown opsCount ctxBot cmdBotOnly 0).1 =
      Except.error (FrameworkError.MissingBotPermissions {0})
    ∧ (({0} : Perms) ≠ ∅ ∧ ({0} : Perms) ⊆ cmdBotOnly.required_bot_permissions) :=
  ⟨by decide,
   (missing_payload_nonempty_subset opsCount ctxG cmdUser2 0).1 {0} (by decide),
   by decide,
   (missing_payload_nonempty_subset opsCount ctxBot cmdBotOnly 0).2 {0} (by decide)⟩

end Poise
